import Mathlib

set_option autoImplicit false

/-!
Verification development for the Presidio data-anonymization guide
(`docs/extras/guides/privacy/presidio_data_anonymization.ipynb`).

The notebook is glue code around the `PresidioAnonymizer` facade: it
configures entity categories, registers one custom regex recognizer and one
custom replacement operator, and wraps `anonymize` into a transform-chain
step.  The facade itself (detection, span substitution, the operator table)
and the transform-chain step live outside the notebook, so they are modelled
here from the specification: detection is a registry of recognizer rules,
each an entity category plus an abstract match function (the regex/NER
engines are opaque external collaborators); replacement operators are
pluggable callbacks that may carry internal state (modelling, e.g., a
pseudo-random fake-value generator), threaded explicitly through one
`anonymize` call.
-/

namespace PresidioDemo

/-- Modelled from the spec: a detection span — start offset, end offset,
entity category and confidence score, relative to one input text. -/
structure RecognizerResult where
  start : Nat
  stop : Nat
  entity_type : String
  score : Nat
deriving Repr, DecidableEq

/-- Modelled from the spec: a recognizer rule associates one entity category
with a detection procedure.  The regex/NER matching engine is an opaque
external collaborator, so a rule carries an abstract match function
returning (start, end) offset pairs for one input text. -/
structure PatternRecognizer where
  supported_entity : String
  matchFn : String → List (Nat × Nat)

/-- Modelled from the spec: a replacement operator is a function producing a
replacement string for a matched span.  The state type σ models the
operator's internal state (e.g. a fake-value generator's PRNG state); a
pure operator leaves it unchanged. -/
def Operator (σ : Type) : Type := σ → String → String × σ

/-- Modelled from the spec: the anonymizer facade's configuration — an
optional allow-list of entity categories (absent means all), the recognizer
registry, and the category → operator table. -/
structure PresidioAnonymizer (σ : Type) where
  analyzed_fields : Option (List String)
  recognizers : List PatternRecognizer
  operators : List (String × Operator σ)

/-- `add_recognizer(rule)`: appends a new detection rule to the registry. -/
def add_recognizer {σ : Type} (a : PresidioAnonymizer σ) (r : PatternRecognizer) :
    PresidioAnonymizer σ :=
  { a with recognizers := a.recognizers ++ [r] }

/-- Merge new category → operator entries into an operator table,
overwriting any existing entry for the same category. -/
def updateTable {σ : Type} (tbl m : List (String × Operator σ)) :
    List (String × Operator σ) :=
  tbl.filter (fun p => !(m.any (fun q => q.1 == p.1))) ++ m

/-- `add_operators(mapping)`: merges new category → function entries into
the operator table, overwriting any existing entry for the same category. -/
def add_operators {σ : Type} (a : PresidioAnonymizer σ)
    (m : List (String × Operator σ)) : PresidioAnonymizer σ :=
  { a with operators := updateTable a.operators m }

/-- Whether a category passes the configured allow-list
(absent allow-list means all categories are analyzed). -/
def allowedField (af : Option (List String)) (cat : String) : Bool :=
  match af with
  | none => true
  | some l => l.contains cat

/-- The default placeholder token for a category, `<CATEGORY_NAME>`. -/
def placeholder (cat : String) : String :=
  "<" ++ cat ++ ">"

/-- Look up the operator for a category: the custom operator if one is
registered, else the default operator emitting the placeholder token. -/
def lookupOperator {σ : Type} (ops : List (String × Operator σ)) (cat : String) :
    Operator σ :=
  match ops.find? (fun p => p.1 == cat) with
  | some p => p.2
  | none => fun s _ => (placeholder cat, s)

/-- Detection: run every recognizer whose category passes the allow-list and
collect its spans as results (the custom pattern recognizer of the notebook
uses score 1). -/
def analyze {σ : Type} (a : PresidioAnonymizer σ) (text : String) :
    List RecognizerResult :=
  (a.recognizers.filter (fun r => allowedField a.analyzed_fields r.supported_entity)).flatMap
    (fun r => (r.matchFn text).map (fun p => ⟨p.1, p.2, r.supported_entity, 1⟩))

/-- Insert a span into a list sorted by descending start offset. -/
def insertSpan (x : RecognizerResult) : List RecognizerResult → List RecognizerResult
  | [] => [x]
  | y :: ys => if y.start ≤ x.start then x :: y :: ys else y :: insertSpan x ys

/-- Sort detected spans by descending start offset, so that substitution
can proceed right-to-left with offsets into the original text. -/
def sortSpansDesc (l : List RecognizerResult) : List RecognizerResult :=
  l.foldr insertSpan []

/-- The substring of `text` covered by offsets `[start, stop)`. -/
def spanText (text : String) (start stop : Nat) : String :=
  (((text.toList).drop start).take (stop - start)).asString

/-- Replace the substring of `text` at offsets `[start, stop)` with `repl`. -/
def replaceSpan (text : String) (start stop : Nat) (repl : String) : String :=
  (((text.toList).take start) ++ repl.toList ++ ((text.toList).drop stop)).asString

/-- Substitution: iterate the sorted spans; for each span look up the
operator for its category, invoke it once on the matched text (threading the
operator state), and replace the span with the operator's output. -/
def applySpans {σ : Type} (ops : List (String × Operator σ)) (orig : String) :
    List RecognizerResult → String × σ → String × σ
  | [], acc => acc
  | sp :: rest, acc =>
      let res := lookupOperator ops sp.entity_type acc.2 (spanText orig sp.start sp.stop)
      applySpans ops orig rest (replaceSpan acc.1 sp.start sp.stop res.1, res.2)

/-- `anonymize(text)` with explicit operator state: detect spans restricted
to the allow-list, sort them, and substitute each with its operator's
output; returns the substituted text and the final operator state. -/
def anonymizeS {σ : Type} (a : PresidioAnonymizer σ) (text : String) (s : σ) :
    String × σ :=
  applySpans a.operators text (sortSpansDesc (analyze a text)) (text, s)

/-- `anonymize(text)` for stateless operator tables. -/
def anonymize (a : PresidioAnonymizer Unit) (text : String) : String :=
  (anonymizeS a text ()).1

/-- Modelled from the spec: the match function of the notebook's
`polish_phone_numbers_pattern` regex, restricted to the contiguous
nine-digit form exercised in the guide — it finds every run of nine digits
that is not adjacent to a further word character. -/
def polishPhoneMatches (text : String) : List (Nat × Nat) :=
  let cs := text.toList
  (List.range cs.length).filterMap (fun i =>
    if ((cs.drop i).take 9).length = 9
        ∧ ((cs.drop i).take 9).all Char.isDigit
        ∧ (i = 0 ∨ ((cs.getD (i - 1) ' ').isAlphanum = false))
        ∧ ((cs.getD (i + 9) ' ').isAlphanum = false)
    then some (i, i + 9) else none)

/-- Modelled from the spec: a deny-list style match function finding every
occurrence of one fixed pattern string (Presidio recognizers built from a
deny list behave this way; the NER engine itself is opaque). -/
def findOccurrences (pat : String) (text : String) : List (Nat × Nat) :=
  let ps := pat.toList
  let cs := text.toList
  (List.range (cs.length + 1)).filterMap (fun i =>
    if ps ≠ [] ∧ (cs.drop i).take ps.length = ps
    then some (i, i + ps.length) else none)

/-- The notebook's custom recognizer for polish phone numbers. -/
def polish_phone_numbers_recognizer : PatternRecognizer :=
  ⟨"POLISH_PHONE_NUMBER", polishPhoneMatches⟩

/-- Modelled from the spec: the external detector's PERSON recognizer,
restricted to the name it detects in the guide's example text. -/
def personRecognizer : PatternRecognizer :=
  ⟨"PERSON", findOccurrences "Slim Shady"⟩

/-- Modelled from the spec: the external detector's PHONE_NUMBER recognizer,
restricted to the number it detects in the guide's example text. -/
def phoneRecognizer : PatternRecognizer :=
  ⟨"PHONE_NUMBER", findOccurrences "313-666-7440"⟩

/-- Modelled from the spec: the external detector's EMAIL_ADDRESS
recognizer, restricted to the address it detects in the guide's example. -/
def emailRecognizer : PatternRecognizer :=
  ⟨"EMAIL_ADDRESS", findOccurrences "real.slim.shady@gmail.com"⟩

/-- The guide's example sentence with a person name, a phone number and an
email address. -/
def slimText : String :=
  "My name is Slim Shady, call me at 313-666-7440 or email me at real.slim.shady@gmail.com"

/-- The guide's polish-phone example sentence. -/
def polishText : String := "My polish phone number is 666555444"

/-- The anonymizer after `add_recognizer(polish_phone_numbers_recognizer)`,
with no custom operators. -/
def polishAnonymizer : PresidioAnonymizer Unit :=
  add_recognizer ⟨none, [], []⟩ polish_phone_numbers_recognizer

/-- A custom operator returning a fixed stub string. -/
def stubOperator (r : String) : Operator Unit := fun s _ => (r, s)

/-- The anonymizer after additionally registering a custom operator for
POLISH_PHONE_NUMBER returning the fixed stub `r`. -/
def stubbedAnonymizer (r : String) : PresidioAnonymizer Unit :=
  add_operators polishAnonymizer [("POLISH_PHONE_NUMBER", stubOperator r)]

/-- A stateful custom operator modelling a fake-value generator: each
invocation returns a fresh value and advances the generator state. -/
def counterOperator : Operator Nat :=
  fun n _ => ("<FAKE_" ++ toString n ++ ">", n + 1)

/-- The polish-phone anonymizer with the stateful fake-value operator. -/
def counterAnonymizer : PresidioAnonymizer Nat :=
  add_operators (add_recognizer ⟨none, [], []⟩ polish_phone_numbers_recognizer)
    [("POLISH_PHONE_NUMBER", counterOperator)]

/-- A text with two occurrences of the same phone number. -/
def dupText : String := "call 666555444 or 666555444"

/-- `PresidioAnonymizer()` over the example recognizers: no allow-list,
so every supported category is analyzed. -/
def fullAnonymizer : PresidioAnonymizer Unit :=
  ⟨none, [personRecognizer, phoneRecognizer, emailRecognizer], []⟩

/-- `PresidioAnonymizer(analyzed_fields=["PERSON"])` over the example
recognizers. -/
def personOnlyAnonymizer : PresidioAnonymizer Unit :=
  ⟨some ["PERSON"], [personRecognizer, phoneRecognizer, emailRecognizer], []⟩

/-- The notebook's `anonymize_func` transform: reads the text under the
fixed input key "text" and produces the anonymized text under the fixed
output key "anonymized_text"; a missing input key is a lookup failure. -/
def anonymize_func (a : PresidioAnonymizer Unit) (inputs : List (String × String)) :
    Option (List (String × String)) :=
  match inputs.find? (fun p => p.1 == "text") with
  | some p => some [("anonymized_text", anonymize a p.2)]
  | none => none

/-- Modelled from the spec and the notebook's recorded output: calling the
transform chain on one text runs the transform on the input record and
returns the input entry merged with the transform's outputs. -/
def anonymize_chain_call (a : PresidioAnonymizer Unit) (text : String) :
    Option (List (String × String)) :=
  (anonymize_func a [("text", text)]).map (fun out => ("text", text) :: out)

/-! ### Helper lemmas -/

theorem mem_insertSpan {x y : RecognizerResult} {l : List RecognizerResult}
    (h : y ∈ insertSpan x l) : y = x ∨ y ∈ l := by
  induction l with
  | nil =>
    rw [insertSpan] at h
    exact Or.inl (List.mem_singleton.mp h)
  | cons z zs ih =>
    rw [insertSpan] at h
    split at h
    · rcases List.mem_cons.mp h with h1 | h1
      · exact Or.inl h1
      · exact Or.inr h1
    · rcases List.mem_cons.mp h with h1 | h1
      · exact Or.inr (h1 ▸ List.mem_cons_self z zs)
      · rcases ih h1 with h2 | h2
        · exact Or.inl h2
        · exact Or.inr (List.mem_cons_of_mem z h2)

theorem mem_sortSpansDesc {y : RecognizerResult} {l : List RecognizerResult}
    (h : y ∈ sortSpansDesc l) : y ∈ l := by
  induction l with
  | nil => exact h
  | cons z zs ih =>
    rw [sortSpansDesc, List.foldr_cons] at h
    rcases mem_insertSpan h with h1 | h1
    · exact h1 ▸ List.mem_cons_self z zs
    · exact List.mem_cons_of_mem z (ih h1)

theorem mem_analyze_allowed {σ : Type} {a : PresidioAnonymizer σ} {text : String}
    {sp : RecognizerResult} (h : sp ∈ analyze a text) :
    allowedField a.analyzed_fields sp.entity_type = true := by
  rw [analyze] at h
  rcases List.mem_flatMap.mp h with ⟨r, hr, hsp⟩
  rcases List.mem_map.mp hsp with ⟨p, _, hpe⟩
  rw [← hpe]
  exact (List.mem_filter.mp hr).2

theorem mem_analyze_entity {σ : Type} {a : PresidioAnonymizer σ} {text : String}
    {sp : RecognizerResult} (h : sp ∈ analyze a text) :
    ∃ r ∈ a.recognizers, sp.entity_type = r.supported_entity := by
  rw [analyze] at h
  rcases List.mem_flatMap.mp h with ⟨r, hr, hsp⟩
  rcases List.mem_map.mp hsp with ⟨p, _, hpe⟩
  exact ⟨r, (List.mem_filter.mp hr).1, by rw [← hpe]⟩

theorem lookupOperator_eq_default {σ : Type} {ops : List (String × Operator σ)}
    {cat : String} (h : ops.find? (fun p => p.1 == cat) = none) :
    lookupOperator ops cat = fun s _ => (placeholder cat, s) := by
  rw [lookupOperator, h]

/-- When every span in the list belongs to a category without a custom
operator, the substituted text does not depend on the operator state. -/
theorem applySpans_default_fst {σ : Type} (ops : List (String × Operator σ))
    (orig : String) (l : List RecognizerResult)
    (h : ∀ sp ∈ l, ops.find? (fun p => p.1 == sp.entity_type) = none) :
    ∀ (t : String) (s₁ s₂ : σ),
      (applySpans ops orig l (t, s₁)).1 = (applySpans ops orig l (t, s₂)).1 := by
  induction l with
  | nil => intro t s₁ s₂; rfl
  | cons sp rest ih =>
    intro t s₁ s₂
    have hsp := h sp (List.mem_cons_self sp rest)
    have hrest : ∀ sp' ∈ rest, ops.find? (fun p => p.1 == sp'.entity_type) = none :=
      fun sp' hm => h sp' (List.mem_cons_of_mem sp hm)
    rw [applySpans, applySpans, lookupOperator_eq_default hsp]
    exact ih hrest _ s₁ s₂

theorem find?_filter_eq {σ : Type} (tbl : List (String × Operator σ)) (cat : String)
    (f : String × Operator σ → Bool)
    (hf : ∀ p : String × Operator σ, (p.1 == cat) = true → f p = true) :
    (tbl.filter f).find? (fun p => p.1 == cat) = tbl.find? (fun p => p.1 == cat) := by
  induction tbl with
  | nil => rfl
  | cons q qs ih =>
    by_cases hq : (q.1 == cat) = true
    · rw [List.filter_cons, if_pos (hf q hq)]
      simp only [List.find?, hq, cond_true]
    · have hq' : (q.1 == cat) = false := by simpa using hq
      by_cases hfq : f q = true
      · rw [List.filter_cons, if_pos hfq]
        simp only [List.find?, hq', cond_false, ih]
      · rw [List.filter_cons, if_neg hfq, ih]
        simp only [List.find?, hq', cond_false]

theorem find?_filter_none {σ : Type} (tbl : List (String × Operator σ)) (cat : String)
    (f : String × Operator σ → Bool)
    (hf : ∀ p : String × Operator σ, (p.1 == cat) = true → f p = false) :
    (tbl.filter f).find? (fun p => p.1 == cat) = none := by
  rw [List.find?_eq_none]
  intro p hp hcat
  have hfp := (List.mem_filter.mp hp).2
  rw [hf p hcat] at hfp
  exact Bool.false_ne_true hfp

/-- Merging a mapping that lacks `cat` leaves the entry for `cat`
unchanged. -/
theorem find?_updateTable_none {σ : Type} (tbl m : List (String × Operator σ))
    (cat : String) (h : m.find? (fun q => q.1 == cat) = none) :
    (updateTable tbl m).find? (fun q => q.1 == cat)
      = tbl.find? (fun q => q.1 == cat) := by
  have hall : ∀ q ∈ m, ¬ ((fun q => q.1 == cat) q = true) := List.find?_eq_none.mp h
  have hf : ∀ p : String × Operator σ, (p.1 == cat) = true →
      (!(m.any (fun q => q.1 == p.1))) = true := by
    intro p hp
    have hpc : p.1 = cat := beq_iff_eq.mp hp
    rw [Bool.not_eq_true']
    rw [Bool.eq_false_iff]
    intro hany
    rcases List.any_eq_true.mp hany with ⟨q, hqm, hqc⟩
    exact hall q hqm (by rw [hpc] at hqc; exact hqc)
  rw [updateTable, List.find?_append, find?_filter_eq tbl cat _ hf, h]
  cases htbl : tbl.find? (fun q => q.1 == cat) with
  | none => rfl
  | some v => rfl

/-- Merging a mapping that contains `cat` overwrites the entry for `cat`
with the mapping's entry. -/
theorem find?_updateTable_some {σ : Type} (tbl m : List (String × Operator σ))
    (cat : String) (h : (m.find? (fun q => q.1 == cat)).isSome = true) :
    (updateTable tbl m).find? (fun q => q.1 == cat)
      = m.find? (fun q => q.1 == cat) := by
  rcases List.find?_isSome.mp h with ⟨q0, hq0m, hq0c⟩
  have hf : ∀ p : String × Operator σ, (p.1 == cat) = true →
      (!(m.any (fun q => q.1 == p.1))) = false := by
    intro p hp
    have hpc : p.1 = cat := beq_iff_eq.mp hp
    rw [Bool.not_eq_false']
    exact List.any_eq_true.mpr ⟨q0, hq0m, by rw [hpc]; exact hq0c⟩
  rw [updateTable, List.find?_append, find?_filter_none tbl cat _ hf, Option.none_or]

/-! ### Claim theorems -/

/-- C1: for every anonymizer, every text in which a span of some category
is detected, and every custom operator entry registered for that category,
`anonymize` replaces the span with that operator's current return value,
not the default placeholder. -/
theorem anonymize_uses_custom_operator {σ : Type} (a : PresidioAnonymizer σ)
    (text : String) (sp : RecognizerResult) (p : String × Operator σ) (st : σ)
    (h : analyze a text = [sp])
    (hop : a.operators.find? (fun q => q.1 == sp.entity_type) = some p) :
    (anonymizeS a text st).1
      = replaceSpan text sp.start sp.stop
          (p.2 st (spanText text sp.start sp.stop)).1 := by
  have hlk : lookupOperator a.operators sp.entity_type = p.2 := by
    rw [lookupOperator, hop]
  rw [anonymizeS, h]
  show (applySpans a.operators text [sp] (text, st)).1 = _
  rw [applySpans, hlk, applySpans]

/-- Witness for C1: the notebook's end-to-end example — with the polish
recognizer registered and a custom operator returning the fixed stub
`"+48 000 000 000"` registered via `add_operators`, the detected span is
replaced by the operator's return value, producing
`"My polish phone number is +48 000 000 000"`. -/
theorem anonymize_uses_custom_operator_witness :
    (analyze (stubbedAnonymizer "+48 000 000 000") polishText
        = [⟨26, 35, "POLISH_PHONE_NUMBER", 1⟩]
      ∧ (stubbedAnonymizer "+48 000 000 000").operators.find?
          (fun q => q.1 == "POLISH_PHONE_NUMBER")
          = some ("POLISH_PHONE_NUMBER", stubOperator "+48 000 000 000"))
    ∧ (anonymizeS (stubbedAnonymizer "+48 000 000 000") polishText ()).1
        = replaceSpan polishText 26 35
            (stubOperator "+48 000 000 000" () (spanText polishText 26 35)).1
    ∧ anonymize (stubbedAnonymizer "+48 000 000 000") polishText
        = "My polish phone number is +48 000 000 000" :=
  ⟨⟨by decide, rfl⟩,
   anonymize_uses_custom_operator (stubbedAnonymizer "+48 000 000 000") polishText
     ⟨26, 35, "POLISH_PHONE_NUMBER", 1⟩
     ("POLISH_PHONE_NUMBER", stubOperator "+48 000 000 000") () (by decide) rfl,
   by decide⟩

/-- C2: when no custom operator is registered for any detected span's
category, each such span's operator is exactly the default placeholder
`<CATEGORY_NAME>` operator, and the substituted text is the same on
repeated calls — it does not depend on the operator state. -/
theorem anonymize_default_placeholder {σ : Type} (a : PresidioAnonymizer σ)
    (text : String)
    (h : ∀ sp ∈ analyze a text,
        (a.operators.find? (fun p => p.1 == sp.entity_type)).isNone = true) :
    (∀ sp ∈ analyze a text, ∀ (s : σ) (orig : String),
        lookupOperator a.operators sp.entity_type s orig
          = (placeholder sp.entity_type, s))
    ∧ ∀ s₁ s₂ : σ, (anonymizeS a text s₁).1 = (anonymizeS a text s₂).1 := by
  have hnone : ∀ sp ∈ analyze a text,
      a.operators.find? (fun p => p.1 == sp.entity_type) = none := by
    intro sp hsp
    exact Option.isNone_iff_eq_none.mp (h sp hsp)
  constructor
  · intro sp hsp s orig
    rw [lookupOperator_eq_default (hnone sp hsp)]
  · intro s₁ s₂
    rw [anonymizeS, anonymizeS]
    exact applySpans_default_fst a.operators text _
      (fun sp hsp => hnone sp (mem_sortSpansDesc hsp)) text s₁ s₂

/-- Witness for C2 at the polish-phone anonymizer (no custom operators) on
the guide's example text. -/
theorem anonymize_default_placeholder_witness :
    (∀ sp ∈ analyze polishAnonymizer polishText,
        (polishAnonymizer.operators.find? (fun p => p.1 == sp.entity_type)).isNone = true)
    ∧ ((∀ sp ∈ analyze polishAnonymizer polishText, ∀ (s : Unit) (orig : String),
          lookupOperator polishAnonymizer.operators sp.entity_type s orig
            = (placeholder sp.entity_type, s))
        ∧ ∀ s₁ s₂ : Unit,
            (anonymizeS polishAnonymizer polishText s₁).1
              = (anonymizeS polishAnonymizer polishText s₂).1) :=
  ⟨by decide, anonymize_default_placeholder polishAnonymizer polishText (by decide)⟩

/-- C4: when detection finds no spans, `anonymize` returns the text
unchanged (and leaves the operator state unchanged). -/
theorem anonymize_identity_on_span_free {σ : Type} (a : PresidioAnonymizer σ)
    (text : String) (s : σ) (h : analyze a text = []) :
    anonymizeS a text s = (text, s) := by
  rw [anonymizeS, h]
  rfl

/-- Witness for C4: the polish-phone anonymizer detects nothing in
`"hello world"` and returns it unchanged. -/
theorem anonymize_identity_on_span_free_witness :
    analyze polishAnonymizer "hello world" = []
    ∧ anonymizeS polishAnonymizer "hello world" () = ("hello world", ()) :=
  ⟨by decide,
   anonymize_identity_on_span_free polishAnonymizer "hello world" () (by decide)⟩

/-- C3: adding a recognizer for a previously-undetected pattern makes every
subsequent `anonymize` call detect occurrences of the pattern: after
`add_recognizer`, a match `(s, e)` of the new rule is among the detected
spans under the rule's category; before it, no span of that category is
detected; and when the match is the only detected span, `anonymize`
substitutes it with its operator's output. -/
theorem add_recognizer_enables_detection {σ : Type} (a : PresidioAnonymizer σ)
    (r : PatternRecognizer) (text : String) (s e : Nat) (st : σ)
    (hmem : (s, e) ∈ r.matchFn text)
    (hallow : allowedField a.analyzed_fields r.supported_entity = true)
    (hnew : ∀ rr ∈ a.recognizers, rr.supported_entity ≠ r.supported_entity) :
    ((⟨s, e, r.supported_entity, 1⟩ : RecognizerResult)
        ∈ analyze (add_recognizer a r) text)
    ∧ (∀ sp ∈ analyze a text, sp.entity_type ≠ r.supported_entity)
    ∧ (r.matchFn text = [(s, e)] → analyze a text = [] →
        (anonymizeS (add_recognizer a r) text st).1
          = replaceSpan text s e
              (lookupOperator a.operators r.supported_entity st
                (spanText text s e)).1) := by
  refine ⟨?_, ?_, ?_⟩
  · rw [analyze]
    apply List.mem_flatMap.mpr
    refine ⟨r, ?_, ?_⟩
    · apply List.mem_filter.mpr
      exact ⟨List.mem_append.mpr (Or.inr (List.mem_singleton_self r)), hallow⟩
    · exact List.mem_map.mpr ⟨(s, e), hmem, rfl⟩
  · intro sp hsp
    rcases mem_analyze_entity hsp with ⟨rr, hrr, heq⟩
    rw [heq]
    exact hnew rr hrr
  · intro hmatch hempty
    rw [analyze] at hempty
    have hana : analyze (add_recognizer a r) text
        = [⟨s, e, r.supported_entity, 1⟩] := by
      rw [analyze]
      show ((a.recognizers ++ [r]).filter
          (fun rr => allowedField a.analyzed_fields rr.supported_entity)).flatMap
          (fun rr => (rr.matchFn text).map
            (fun p => RecognizerResult.mk p.1 p.2 rr.supported_entity 1))
          = [RecognizerResult.mk s e r.supported_entity 1]
      rw [List.filter_append, List.flatMap_append, hempty]
      rw [List.filter_cons, if_pos hallow]
      show ([r].flatMap (fun rr => (rr.matchFn text).map
          (fun p => RecognizerResult.mk p.1 p.2 rr.supported_entity 1)))
          = [RecognizerResult.mk s e r.supported_entity 1]
      rw [List.flatMap_cons, List.flatMap_nil, hmatch]
      rfl
    rw [anonymizeS, hana]
    rfl

/-- Witness for C3: a PERSON-only registry does not detect the polish phone
number in the guide's example; after `add_recognizer` it is detected and
substituted. -/
theorem add_recognizer_enables_detection_witness :
    ((26, 35) ∈ polish_phone_numbers_recognizer.matchFn polishText
      ∧ allowedField (none : Option (List String))
          polish_phone_numbers_recognizer.supported_entity = true
      ∧ ∀ rr ∈ [personRecognizer],
          rr.supported_entity ≠ polish_phone_numbers_recognizer.supported_entity)
    ∧ (((⟨26, 35, polish_phone_numbers_recognizer.supported_entity, 1⟩ : RecognizerResult)
          ∈ analyze
              (add_recognizer
                (⟨none, [personRecognizer], []⟩ : PresidioAnonymizer Unit)
                polish_phone_numbers_recognizer) polishText)
      ∧ (∀ sp ∈ analyze (⟨none, [personRecognizer], []⟩ : PresidioAnonymizer Unit)
            polishText,
          sp.entity_type ≠ polish_phone_numbers_recognizer.supported_entity)
      ∧ (polish_phone_numbers_recognizer.matchFn polishText = [(26, 35)] →
          analyze (⟨none, [personRecognizer], []⟩ : PresidioAnonymizer Unit)
              polishText = [] →
          (anonymizeS
              (add_recognizer
                (⟨none, [personRecognizer], []⟩ : PresidioAnonymizer Unit)
                polish_phone_numbers_recognizer) polishText ()).1
            = replaceSpan polishText 26 35
                (lookupOperator ([] : List (String × Operator Unit))
                  polish_phone_numbers_recognizer.supported_entity ()
                  (spanText polishText 26 35)).1)) :=
  ⟨⟨by decide, by decide, by decide⟩,
   add_recognizer_enables_detection
     (⟨none, [personRecognizer], []⟩ : PresidioAnonymizer Unit)
     polish_phone_numbers_recognizer polishText 26 35 ()
     (by decide) (by decide) (by decide)⟩

/-- C5: detection is restricted to the allow-listed categories, and when one
span is detected, the substituted text is exactly the unchanged text before
the span, the operator output, and the unchanged text after the span — all
non-span substrings appear verbatim. -/
theorem anonymize_frame_single {σ : Type} (a : PresidioAnonymizer σ) (text : String)
    (sp : RecognizerResult) (st : σ) (h : analyze a text = [sp]) :
    allowedField a.analyzed_fields sp.entity_type = true
    ∧ (anonymizeS a text st).1.toList
        = text.toList.take sp.start
          ++ (lookupOperator a.operators sp.entity_type st
                (spanText text sp.start sp.stop)).1.toList
          ++ text.toList.drop sp.stop := by
  constructor
  · have hsp : sp ∈ analyze a text := by
      rw [h]
      exact List.mem_singleton_self sp
    exact mem_analyze_allowed hsp
  · rw [anonymizeS, h]
    rfl

/-- Witness for C5 at the allow-list ["PERSON"]: only the person name is
detected in the guide's example, and the phone number and email address
stay verbatim in the output. -/
theorem anonymize_frame_single_witness :
    analyze personOnlyAnonymizer slimText = [⟨11, 21, "PERSON", 1⟩]
    ∧ (allowedField personOnlyAnonymizer.analyzed_fields "PERSON" = true
        ∧ (anonymizeS personOnlyAnonymizer slimText ()).1.toList
            = slimText.toList.take 11
              ++ (lookupOperator personOnlyAnonymizer.operators "PERSON" ()
                    (spanText slimText 11 21)).1.toList
              ++ slimText.toList.drop 21)
    ∧ anonymize personOnlyAnonymizer slimText
        = "My name is <PERSON>, call me at 313-666-7440 or email me at real.slim.shady@gmail.com" :=
  ⟨by decide,
   anonymize_frame_single personOnlyAnonymizer slimText ⟨11, 21, "PERSON", 1⟩ ()
     (by decide),
   by decide⟩

/-- C6: an anonymizer constructed without an allow-list passes every
category, and on the guide's example text the person name, phone number and
email address are all replaced. -/
theorem anonymize_without_allow_list :
    (∀ cat : String, allowedField fullAnonymizer.analyzed_fields cat = true)
    ∧ anonymize fullAnonymizer slimText
        = "My name is <PERSON>, call me at <PHONE_NUMBER> or email me at <EMAIL_ADDRESS>" :=
  ⟨fun _ => rfl, by decide⟩

/-- The operator mapping registered by the notebook's `add_operators` call,
with the fake-value generator replaced by the fixed stub. -/
def stubOpMap : List (String × Operator Unit) :=
  [("POLISH_PHONE_NUMBER", stubOperator "+48 000 000 000")]

/-- C7: `add_operators` merges the given entries into the operator table —
a category present in the mapping afterwards resolves to the mapping's
function, a category absent from the mapping resolves to its previous
entry, and no entry is ever removed. -/
theorem add_operators_merge_semantics {σ : Type} (a : PresidioAnonymizer σ)
    (m : List (String × Operator σ)) (cat : String) :
    ((m.find? (fun q => q.1 == cat)).isSome = true →
        (add_operators a m).operators.find? (fun q => q.1 == cat)
          = m.find? (fun q => q.1 == cat))
    ∧ ((m.find? (fun q => q.1 == cat)).isNone = true →
        (add_operators a m).operators.find? (fun q => q.1 == cat)
          = a.operators.find? (fun q => q.1 == cat))
    ∧ ((a.operators.find? (fun q => q.1 == cat)).isSome = true →
        ((add_operators a m).operators.find? (fun q => q.1 == cat)).isSome = true) := by
  refine ⟨?_, ?_, ?_⟩
  · intro h
    exact find?_updateTable_some a.operators m cat h
  · intro h
    exact find?_updateTable_none a.operators m cat (Option.isNone_iff_eq_none.mp h)
  · intro h
    by_cases hm : (m.find? (fun q => q.1 == cat)).isSome = true
    · have := find?_updateTable_some a.operators m cat hm
      show ((add_operators a m).operators.find? (fun q => q.1 == cat)).isSome = true
      rw [show (add_operators a m).operators = updateTable a.operators m from rfl, this]
      exact hm
    · have hnone : m.find? (fun q => q.1 == cat) = none := by
        rcases hmm : m.find? (fun q => q.1 == cat) with _ | v
        · exact hmm
        · exact absurd (by rw [hmm]; rfl) hm
      have := find?_updateTable_none a.operators m cat hnone
      rw [show (add_operators a m).operators = updateTable a.operators m from rfl, this]
      exact h

/-- Witness for C7 at the notebook's operator mapping: the
POLISH_PHONE_NUMBER entry is overwritten by the mapping's function, and the
PERSON entry is unchanged. -/
theorem add_operators_merge_semantics_witness :
    ((stubOpMap.find? (fun q => q.1 == "POLISH_PHONE_NUMBER")).isSome = true
      ∧ (add_operators polishAnonymizer stubOpMap).operators.find?
            (fun q => q.1 == "POLISH_PHONE_NUMBER")
          = stubOpMap.find? (fun q => q.1 == "POLISH_PHONE_NUMBER"))
    ∧ ((stubOpMap.find? (fun q => q.1 == "PERSON")).isNone = true
      ∧ (add_operators polishAnonymizer stubOpMap).operators.find?
            (fun q => q.1 == "PERSON")
          = polishAnonymizer.operators.find? (fun q => q.1 == "PERSON")) :=
  ⟨⟨rfl, (add_operators_merge_semantics polishAnonymizer stubOpMap
      "POLISH_PHONE_NUMBER").1 rfl⟩,
   ⟨rfl, (add_operators_merge_semantics polishAnonymizer stubOpMap "PERSON").2.1 rfl⟩⟩

/-- C8: on any input record holding a text under the fixed key "text", the
transform step produces under the fixed key "anonymized_text" exactly the
facade's `anonymize` of that text, and nothing else. -/
theorem anonymize_func_contract (a : PresidioAnonymizer Unit)
    (inputs : List (String × String)) (p : String × String)
    (h : inputs.find? (fun q => q.1 == "text") = some p) :
    anonymize_func a inputs = some [("anonymized_text", anonymize a p.2)] := by
  rw [anonymize_func, h]

/-- Witness for C8 at the polish-phone example input. -/
theorem anonymize_func_contract_witness :
    [("text", polishText)].find? (fun q => q.1 == "text") = some ("text", polishText)
    ∧ anonymize_func polishAnonymizer [("text", polishText)]
        = some [("anonymized_text", anonymize polishAnonymizer polishText)] :=
  ⟨rfl,
   anonymize_func_contract polishAnonymizer [("text", polishText)]
     ("text", polishText) rfl⟩

/-- C9: replacement is independent per detected span — the operator is
invoked once per span (the generator state advances once per detected
span), so the two occurrences of the same phone number in one text are
replaced by two different values. -/
theorem independent_span_replacement :
    spanText dupText 5 14 = spanText dupText 18 27
    ∧ (anonymizeS counterAnonymizer dupText 0).1 = "call <FAKE_1> or <FAKE_0>"
    ∧ (anonymizeS counterAnonymizer dupText 0).2
        = 0 + (analyze counterAnonymizer dupText).length
    ∧ (analyze counterAnonymizer dupText).length = 2 :=
  ⟨rfl, by decide, rfl, rfl⟩

/-- C10: the transform chain's result carries the original input text
unchanged under "text" alongside the "anonymized_text" entry. -/
theorem chain_output_contains_original (a : PresidioAnonymizer Unit) (text : String) :
    anonymize_chain_call a text
      = some [("text", text), ("anonymized_text", anonymize a text)] := rfl

end PresidioDemo
